import Mathlib

/-!
# ciferclient: image metadata extraction and file checksum

A shallow embedding of `GetImageMetadata` and `GetFileChecksum` from `main.go`,
together with the pieces of the Go runtime they call: `os.Open`, `(*os.File).Seek`,
`(*os.File).Read`, `(*os.File).Stat`, `image.DecodeConfig`, `crypto/sha256` and
`encoding/hex`.

Bytes are natural numbers below 256, Go errors are their message text
(`none` is the nil error), and every operating-system call the program
makes is recorded in a trace.
-/

/-! ## crypto/sha256 (FIPS 180-4), on natural numbers reduced modulo 2^32 -/

namespace sha256

/-- Truncation to a 32-bit word. -/
def mask32 (x : Nat) : Nat := x % 4294967296

/-- Rotate a 32-bit word right by `n` bits. -/
def rotr (x n : Nat) : Nat := mask32 ((x >>> n) ||| (x <<< (32 - n)))

/-- The largest `r` below `2 ^ bits` with `r ^ k ≤ n`, built bit by bit from the top. -/
def iroot (k n : Nat) : Nat → Nat → Nat
  | 0, r => r
  | b + 1, r => if (r + 2 ^ b) ^ k ≤ n then iroot k n b (r + 2 ^ b) else iroot k n b r

/-- The first 64 primes. -/
def primes : List Nat :=
  [2, 3, 5, 7, 11, 13, 17, 19, 23, 29, 31, 37, 41, 43, 47, 53, 59, 61, 67, 71, 73, 79, 83, 89,
   97, 101, 103, 107, 109, 113, 127, 131, 137, 139, 149, 151, 157, 163, 167, 173, 179, 181,
   191, 193, 197, 199, 211, 223, 227, 229, 233, 239, 241, 251, 257, 263, 269, 271, 277, 281,
   283, 293, 307, 311]

/-- Round constants: the first 32 bits of the fractional parts of the cube roots of the
first 64 primes. -/
def K : List Nat := primes.map fun p => mask32 (iroot 3 (p <<< 96) 36 0)

/-- Initial hash value: the first 32 bits of the fractional parts of the square roots of
the first 8 primes. -/
def init : List Nat := (primes.take 8).map fun p => mask32 (iroot 2 (p <<< 64) 36 0)

/-- Big-endian bytes of the low `n` bytes of `x`. -/
def beBytes : Nat → Nat → List Nat
  | 0, _ => []
  | n + 1, x => (x >>> (8 * n)) % 256 :: beBytes n x

/-- Padding appended to a message of `len` bytes. -/
def padding (len : Nat) : List Nat :=
  0x80 :: List.replicate ((119 - len % 64) % 64) 0 ++ beBytes 8 (8 * len)

/-- Reads `n` big-endian 32-bit words from a byte list. -/
def words : Nat → List Nat → List Nat
  | 0, _ => []
  | n + 1, b0 :: b1 :: b2 :: b3 :: rest =>
      (b0 * 16777216 + b1 * 65536 + b2 * 256 + b3) :: words n rest
  | _ + 1, _ => []

def ssig0 (x : Nat) : Nat := rotr x 7 ^^^ rotr x 18 ^^^ (x >>> 3)
def ssig1 (x : Nat) : Nat := rotr x 17 ^^^ rotr x 19 ^^^ (x >>> 10)
def bsig0 (x : Nat) : Nat := rotr x 2 ^^^ rotr x 13 ^^^ rotr x 22
def bsig1 (x : Nat) : Nat := rotr x 6 ^^^ rotr x 11 ^^^ rotr x 25
def ch (x y z : Nat) : Nat := (x &&& y) ^^^ ((x ^^^ 0xffffffff) &&& z)
def maj (x y z : Nat) : Nat := (x &&& y) ^^^ (x &&& z) ^^^ (y &&& z)

/-- Extends the schedule, kept newest-first, by `n` further words. -/
def extend : Nat → List Nat → List Nat
  | 0, w => w
  | n + 1, w =>
      extend n (mask32 (ssig1 (w.getD 1 0) + w.getD 6 0 + ssig0 (w.getD 14 0) + w.getD 15 0) :: w)

/-- Message schedule of one 64-byte block: 64 words. -/
def schedule (block : List Nat) : List Nat :=
  (extend 48 (words 16 block).reverse).reverse

/-- One round of the compression function on the working variables `a..h`. -/
def round (s : List Nat) (kw : Nat × Nat) : List Nat :=
  match s with
  | [a, b, c, d, e, f, g, h] =>
      let t1 := h + bsig1 e + ch e f g + kw.1 + kw.2
      let t2 := bsig0 a + maj a b c
      [mask32 (t1 + t2), a, b, c, mask32 (d + t1), e, f, g]
  | _ => s

/-- Compression of one block into the chaining value. -/
def compress (h : List Nat) (block : List Nat) : List Nat :=
  List.zipWith (fun x y => mask32 (x + y)) h ((K.zip (schedule block)).foldl round h)

/-- Folds `compress` over the first `n` 64-byte blocks of `msg`. -/
def blocks : Nat → List Nat → List Nat → List Nat
  | 0, h, _ => h
  | n + 1, h, msg => blocks n (compress h (msg.take 64)) (msg.drop 64)

/-- The 32-byte SHA-256 digest of `msg`. -/
def sum256 (msg : List Nat) : List Nat :=
  let padded := msg ++ padding msg.length
  (blocks (padded.length / 64) init padded).flatMap (beBytes 4)

/-- The hash object `sha256.New()` returns; its state is the input absorbed so far. -/
structure Digest where
  absorbed : List Nat
deriving DecidableEq, Repr

/-- Go `sha256.New()`. -/
def New : Digest := ⟨[]⟩

/-- Go `hash.Write(p)`: absorbs `p` into the hash state. -/
def Digest.Write (d : Digest) (p : List Nat) : Digest := ⟨d.absorbed ++ p⟩

/-- Go `hash.Sum(b)`: appends the digest of the absorbed input to `b`; the hash state is
left unchanged. -/
def Digest.Sum (d : Digest) (b : List Nat) : List Nat := b ++ sum256 d.absorbed

end sha256

/-! ## encoding/hex -/

namespace hex

/-- Go `hextable`. -/
def hextable : List Char := "0123456789abcdef".data

/-- Go `hex.EncodeToString`: two lowercase hex digits per byte, high nibble first. -/
def EncodeToString (src : List Nat) : String :=
  String.mk (src.flatMap fun b => [hextable.getD (b >>> 4) '0', hextable.getD (b &&& 0x0f) '0'])

/-- A lowercase hexadecimal digit. -/
def isLowerHex (c : Char) : Bool := ('0' ≤ c && c ≤ '9') || ('a' ≤ c && c ≤ 'f')

end hex

/-! ## The filesystem and `*os.File` -/

/-- What a path resolves to: a byte stream, and the error text (if any) that each system
call on it answers with. A regular readable file has no errors set. -/
structure Inode where
  content : List Nat
  openErr : Option String
  seekErr : Option String
  readErr : Option String
  statErr : Option String
deriving DecidableEq, Repr

/-- A filesystem state: `none` for a path that does not exist. -/
abbrev FileSystem := String → Option Inode

/-- Go `os.FileInfo`, the two attributes the program reads. -/
structure FileInfo where
  Name : String
  Size : Int
deriving DecidableEq, Repr

/-- Go `*os.File`: the name it was opened under, the object behind it and the read offset. -/
structure File where
  name : String
  node : Inode
  pos : Nat
deriving DecidableEq, Repr

/-- The result of `(*os.File).Read`: the file after the call, the buffer after the call,
the byte count and the error. -/
structure ReadResult where
  file : File
  buf : List Nat
  n : Nat
  err : Option String
deriving DecidableEq, Repr

/-- Go `os.Open`. -/
def Open (fs : FileSystem) (name : String) : Except String File :=
  match fs name with
  | none => .error ("open " ++ name ++ ": no such file or directory")
  | some nd =>
    match nd.openErr with
    | some e => .error ("open " ++ name ++ ": " ++ e)
    | none => .ok ⟨name, nd, 0⟩

/-- Go `file.Seek(offset, io.SeekStart)`: the file after the call and the new offset. -/
def File.Seek (f : File) (offset : Nat) : Except String (File × Nat) :=
  match f.node.seekErr with
  | some e => .error ("seek " ++ f.name ++ ": " ++ e)
  | none => .ok (⟨f.name, f.node, offset⟩, offset)

/-- Go `file.Read(b)`: reads up to `len(b)` bytes at the current offset into `b`.
A zero-length buffer reads nothing; at end of file the result is `0, io.EOF`. -/
def File.Read (f : File) (b : List Nat) : ReadResult :=
  match f.node.readErr with
  | some e => ⟨f, b, 0, some ("read " ++ f.name ++ ": " ++ e)⟩
  | none =>
    let avail := f.node.content.drop f.pos
    let n := min b.length avail.length
    if b.length = 0 then ⟨f, b, 0, none⟩
    else if n = 0 then ⟨f, b, 0, some "EOF"⟩
    else ⟨⟨f.name, f.node, f.pos + n⟩, avail.take n ++ b.drop n, n, none⟩

/-- Drops trailing slashes from a reversed name, keeping at least one character. -/
def stripSlashes : List Char → List Char
  | '/' :: c :: rest => stripSlashes (c :: rest)
  | l => l

/-- Go `os.basename`: the last element of a path. -/
def basename (name : String) : String :=
  match stripSlashes name.data.reverse with
  | [] => ""
  | c :: rest => String.mk ((rest.takeWhile fun x => x != '/').reverse ++ [c])

/-- Go `file.Stat()`: the base name of the opened name and the byte length of the file. -/
def File.Stat (f : File) : Except String FileInfo :=
  match f.node.statErr with
  | some e => .error ("stat " ++ f.name ++ ": " ++ e)
  | none => .ok ⟨basename f.name, f.node.content.length⟩

deriving instance DecidableEq for Except

/-! ## image.DecodeConfig -/

/-- Go `image.Config`, the two fields the program reads. -/
structure Config where
  Width : Int
  Height : Int
deriving DecidableEq, Repr

/-- The registered header decoders, taken as one function of the bytes of the file:
the decoded configuration and format name, or the error text. -/
abbrev Decoders := List Nat → Except String (Config × String)

/-- The world a call runs in: the filesystem and the registered image decoders. -/
structure Env where
  fs : FileSystem
  decoders : Decoders

/-- Go `image.DecodeConfig(file)`: when the file cannot be read no format is recognised. -/
def DecodeConfig (env : Env) (f : File) : Except String (Config × String) :=
  match f.node.readErr with
  | some _ => .error "image: unknown format"
  | none => env.decoders (f.node.content.drop f.pos)

/-! ## main.go -/

/-- One operating-system level step of a call, with the name of the file it acts on. -/
inductive Event where
  | openFile (path : String)
  | decodeHeader (path : String)
  | statFile (path : String)
  | seekFile (path : String)
  | readFile (path : String) (len : Nat)
  | closeFile (path : String)
deriving DecidableEq, Repr

/-- A Go result pair `(value, error)` together with the trace of the call. -/
structure Outcome (α : Type) where
  val : α
  err : Option String
  trace : List Event

/-- The record `main.go` builds for an image file. -/
structure Metadata where
  FileName : String
  Width : Int
  Height : Int
  Format : String
  Checksum : String
  FileSize : Int
deriving DecidableEq, Repr

/-- The function `GetFileChecksum` of `main.go`. The buffer handed to `file.Read` is the
slice `hash.Sum(nil)` returns, and nothing is written to `hash`. -/
def GetFileChecksum (env : Env) (filePath : String) : Outcome String :=
  match Open env.fs filePath with
  | .error err => ⟨"", some ("error opening file: " ++ err), [.openFile filePath]⟩
  | .ok file =>
    let hash := sha256.New
    match file.Seek 0 with
    | .error err =>
      ⟨"", some ("error resetting file pointer: " ++ err),
        [.openFile filePath, .seekFile filePath, .closeFile filePath]⟩
    | .ok (file, _) =>
      let buf := hash.Sum []
      match (file.Read buf).err with
      | some err =>
        ⟨"", some ("error calculating checksum: " ++ err),
          [.openFile filePath, .seekFile filePath, .readFile filePath buf.length,
            .closeFile filePath]⟩
      | none =>
        ⟨hex.EncodeToString (hash.Sum []), none,
          [.openFile filePath, .seekFile filePath, .readFile filePath buf.length,
            .closeFile filePath]⟩

/-- The function `GetImageMetadata` of `main.go`. -/
def GetImageMetadata (env : Env) (filePath : String) : Outcome (Option Metadata) :=
  match Open env.fs filePath with
  | .error err => ⟨none, some ("error opening file: " ++ err), [.openFile filePath]⟩
  | .ok file =>
    match DecodeConfig env file with
    | .error err =>
      ⟨none, some ("error decoding image: " ++ err),
        [.openFile filePath, .decodeHeader filePath, .closeFile filePath]⟩
    | .ok (img, format) =>
      match file.Stat with
      | .error err =>
        ⟨none, some ("error getting file info: " ++ err),
          [.openFile filePath, .decodeHeader filePath, .statFile filePath,
            .closeFile filePath]⟩
      | .ok fileInfo =>
        let cs := GetFileChecksum env filePath
        let trace := [.openFile filePath, .decodeHeader filePath, .statFile filePath]
          ++ cs.trace ++ [.closeFile filePath]
        match cs.err with
        | some err => ⟨none, some ("error generating checksum: " ++ err), trace⟩
        | none =>
          ⟨some ⟨fileInfo.Name, img.Width, img.Height, format, cs.val, fileInfo.Size⟩,
            none, trace⟩

/-! ## A sample world -/

/-- The 8-byte PNG signature followed by the start of an `IHDR` chunk for a 10 x 10 image. -/
def samplePng : List Nat :=
  [0x89, 0x50, 0x4e, 0x47, 0x0d, 0x0a, 0x1a, 0x0a, 0, 0, 0, 13, 0x49, 0x48, 0x44, 0x52,
   0, 0, 0, 10, 0, 0, 0, 10, 8, 2, 0, 0, 0]

/-- A sample registry with a single decoder: it recognises the PNG signature and reads the
width and height words of the `IHDR` chunk. -/
def sampleDecoders : Decoders := fun bytes =>
  if bytes.take 8 = [0x89, 0x50, 0x4e, 0x47, 0x0d, 0x0a, 0x1a, 0x0a] then
    match sha256.words 2 (bytes.drop 16) with
    | [w, h] => .ok (⟨w, h⟩, "png")
    | _ => .error "unexpected EOF"
  else .error "image: unknown format"

/-- A regular readable file with the given bytes. -/
def regular (content : List Nat) : Inode := ⟨content, none, none, none, none⟩

/-- A sample filesystem. -/
def sampleFS : FileSystem := fun path =>
  if path = "dataset_example.png" then some (regular samplePng)
  else if path = "/tmp/copy.png" then some (regular samplePng)
  else if path = "a.txt" then some (regular [0x61])
  else if path = "b.txt" then some (regular [0x62])
  else if path = "empty" then some (regular [])
  else if path = "secret" then some ⟨[0x61], some "permission denied", none, none, none⟩
  else if path = "broken.png" then some ⟨samplePng, none, none, none, some "input/output error"⟩
  else none

/-- The sample world. -/
def sampleEnv : Env := ⟨sampleFS, sampleDecoders⟩

/-! ## Facts about the runtime model -/

set_option maxRecDepth 100000 in
/-- The SHA-256 digest of the empty input. -/
theorem sha256.sum256_nil :
    sha256.sum256 [] =
      [0xe3, 0xb0, 0xc4, 0x42, 0x98, 0xfc, 0x1c, 0x14, 0x9a, 0xfb, 0xf4, 0xc8, 0x99, 0x6f,
       0xb9, 0x24, 0x27, 0xae, 0x41, 0xe4, 0x64, 0x9b, 0x93, 0x4c, 0xa4, 0x95, 0x99, 0x1b,
       0x78, 0x52, 0xb8, 0x55] := by
  decide!

/-- A fresh hash object sums to the digest of the empty input. -/
theorem sha256.New_Sum_nil : sha256.New.Sum [] = sha256.sum256 [] := by
  simp only [sha256.Digest.Sum, sha256.New, List.nil_append]

/-- The slice `hash.Sum(nil)` of a fresh hash object has 32 bytes. -/
theorem sha256.New_Sum_length : (sha256.New.Sum []).length = 32 := by
  rw [sha256.New_Sum_nil, sha256.sum256_nil]; rfl

/-- The hex encoding of the digest of the empty input. -/
theorem hex_New_Sum :
    hex.EncodeToString (sha256.New.Sum []) =
      "e3b0c44298fc1c149afbf4c8996fb92427ae41e4649b934ca495991b7852b855" := by
  rw [sha256.New_Sum_nil, sha256.sum256_nil]; decide

/-- A read into a non-empty buffer fails exactly on a read error or at end of file. -/
theorem File.Read_err_none_iff (f : File) (b : List Nat) (hb : b.length ≠ 0) :
    (f.Read b).err = none ↔ f.node.readErr = none ∧ f.pos < f.node.content.length := by
  unfold File.Read
  cases hr : f.node.readErr with
  | some e => simp
  | none =>
    have hd : (List.drop f.pos f.node.content).length = f.node.content.length - f.pos :=
      List.length_drop _ _
    simp only [hb, if_false, true_and]
    split_ifs with h0
    · rw [hd] at h0
      simp only [reduceCtorEq, false_iff, not_lt]
      omega
    · rw [hd] at h0
      simp only [true_iff]
      omega

/-- The three ways `GetFileChecksum` fails and the one way it succeeds. -/
theorem GetFileChecksum_spec (env : Env) (p : String) :
    (∃ e, Open env.fs p = .error e ∧ (GetFileChecksum env p).val = "" ∧
        (GetFileChecksum env p).err = some ("error opening file: " ++ e)) ∨
    (∃ f e, Open env.fs p = .ok f ∧ f.Seek 0 = .error e ∧ (GetFileChecksum env p).val = "" ∧
        (GetFileChecksum env p).err = some ("error resetting file pointer: " ++ e)) ∨
    (∃ f g o e, Open env.fs p = .ok f ∧ f.Seek 0 = .ok (g, o) ∧
        (g.Read (sha256.New.Sum [])).err = some e ∧ (GetFileChecksum env p).val = "" ∧
        (GetFileChecksum env p).err = some ("error calculating checksum: " ++ e)) ∨
    (∃ f g o, Open env.fs p = .ok f ∧ f.Seek 0 = .ok (g, o) ∧
        (g.Read (sha256.New.Sum [])).err = none ∧
        (GetFileChecksum env p).val = hex.EncodeToString (sha256.New.Sum []) ∧
        (GetFileChecksum env p).err = none) := by
  unfold GetFileChecksum
  cases ho : Open env.fs p with
  | error e => exact Or.inl ⟨e, rfl, rfl, rfl⟩
  | ok f =>
    cases hs : f.Seek 0 with
    | error e => exact Or.inr (Or.inl ⟨f, e, rfl, hs, by simp [hs], by simp [hs]⟩)
    | ok r =>
      obtain ⟨g, o⟩ := r
      cases hr : (g.Read (sha256.New.Sum [])).err with
      | some e =>
        exact Or.inr (Or.inr (Or.inl ⟨f, g, o, e, rfl, hs, hr, by simp [hs, hr], by simp [hs, hr]⟩))
      | none =>
        exact Or.inr (Or.inr (Or.inr ⟨f, g, o, rfl, hs, hr, by simp [hs, hr], by simp [hs, hr]⟩))

/-- A successful `GetFileChecksum` returns the hex digest of the empty input. -/
theorem GetFileChecksum_val_of_ok (env : Env) (p : String)
    (h : (GetFileChecksum env p).err = none) :
    (GetFileChecksum env p).val =
      "e3b0c44298fc1c149afbf4c8996fb92427ae41e4649b934ca495991b7852b855" := by
  rcases GetFileChecksum_spec env p with ⟨e, _, _, he⟩ | ⟨f, e, _, _, _, he⟩ |
    ⟨f, g, o, e, _, _, _, _, he⟩ | ⟨f, g, o, _, _, _, hv, _⟩
  · rw [he] at h; cases h
  · rw [he] at h; cases h
  · rw [he] at h; cases h
  · rw [hv, hex_New_Sum]

/-- Opening a path that resolves to an object without an open error. -/
theorem Open_ok (fs : FileSystem) (p : String) (nd : Inode) (h : fs p = some nd)
    (ho : nd.openErr = none) : Open fs p = .ok ⟨p, nd, 0⟩ := by
  simp [Open, h, ho]

/-- On a file without open, seek or read error the outcome of `GetFileChecksum` is decided by
whether the content is empty. -/
theorem GetFileChecksum_readable (env : Env) (p : String) (nd : Inode) (h : env.fs p = some nd)
    (ho : nd.openErr = none) (hs : nd.seekErr = none) (hr : nd.readErr = none) :
    (nd.content = [] → (GetFileChecksum env p).val = "" ∧
      (GetFileChecksum env p).err = some "error calculating checksum: EOF") ∧
    (nd.content ≠ [] →
      (GetFileChecksum env p).val =
        "e3b0c44298fc1c149afbf4c8996fb92427ae41e4649b934ca495991b7852b855" ∧
      (GetFileChecksum env p).err = none) := by
  have hlen := sha256.New_Sum_length
  unfold GetFileChecksum
  rw [Open_ok env.fs p nd h ho]
  simp only [File.Seek, hs, File.Read, hr, hlen]
  cases hc : nd.content with
  | nil => simp
  | cons a l => simp [hex_New_Sum]

/-- The outcome of `GetImageMetadata`, step by step. -/
theorem GetImageMetadata_spec (env : Env) (p : String) :
    (∃ e, Open env.fs p = .error e ∧ (GetImageMetadata env p).val = none ∧
        (GetImageMetadata env p).err = some ("error opening file: " ++ e) ∧
        (GetImageMetadata env p).trace = [.openFile p]) ∨
    (∃ f e, Open env.fs p = .ok f ∧ DecodeConfig env f = .error e ∧
        (GetImageMetadata env p).val = none ∧
        (GetImageMetadata env p).err = some ("error decoding image: " ++ e) ∧
        (GetImageMetadata env p).trace = [.openFile p, .decodeHeader p, .closeFile p]) ∨
    (∃ f img format e, Open env.fs p = .ok f ∧ DecodeConfig env f = .ok (img, format) ∧
        f.Stat = .error e ∧ (GetImageMetadata env p).val = none ∧
        (GetImageMetadata env p).err = some ("error getting file info: " ++ e)) ∨
    (∃ f img format fileInfo e, Open env.fs p = .ok f ∧
        DecodeConfig env f = .ok (img, format) ∧ f.Stat = .ok fileInfo ∧
        (GetFileChecksum env p).err = some e ∧ (GetImageMetadata env p).val = none ∧
        (GetImageMetadata env p).err = some ("error generating checksum: " ++ e)) ∨
    (∃ f img format fileInfo, Open env.fs p = .ok f ∧
        DecodeConfig env f = .ok (img, format) ∧ f.Stat = .ok fileInfo ∧
        (GetFileChecksum env p).err = none ∧
        (GetImageMetadata env p).val =
          some ⟨fileInfo.Name, img.Width, img.Height, format, (GetFileChecksum env p).val,
            fileInfo.Size⟩ ∧
        (GetImageMetadata env p).err = none) := by
  unfold GetImageMetadata
  cases ho : Open env.fs p with
  | error e => exact Or.inl ⟨e, rfl, rfl, rfl, rfl⟩
  | ok f =>
    cases hd : DecodeConfig env f with
    | error e => exact Or.inr (Or.inl ⟨f, e, rfl, hd, by simp [hd], by simp [hd], by simp [hd]⟩)
    | ok r =>
      obtain ⟨img, format⟩ := r
      cases hs : f.Stat with
      | error e =>
        exact Or.inr (Or.inr (Or.inl ⟨f, img, format, e, rfl, hd, hs, by simp [hd, hs],
          by simp [hd, hs]⟩))
      | ok fileInfo =>
        cases hc : (GetFileChecksum env p).err with
        | some e =>
          exact Or.inr (Or.inr (Or.inr (Or.inl ⟨f, img, format, fileInfo, e, rfl, hd, hs, rfl,
            by simp [hd, hs, hc], by simp [hd, hs, hc]⟩)))
        | none =>
          exact Or.inr (Or.inr (Or.inr (Or.inr ⟨f, img, format, fileInfo, rfl, hd, hs, rfl,
            by simp [hd, hs, hc], by simp [hd, hs, hc]⟩)))

/-- A successful `GetImageMetadata` went through all four steps and built its record from
their results. -/
theorem GetImageMetadata_some (env : Env) (p : String) (md : Metadata)
    (h : (GetImageMetadata env p).val = some md) :
    ∃ f img format fileInfo, Open env.fs p = .ok f ∧
      DecodeConfig env f = .ok (img, format) ∧ f.Stat = .ok fileInfo ∧
      (GetFileChecksum env p).err = none ∧
      md = ⟨fileInfo.Name, img.Width, img.Height, format, (GetFileChecksum env p).val,
        fileInfo.Size⟩ := by
  rcases GetImageMetadata_spec env p with ⟨e, _, hv, _⟩ | ⟨f, e, _, _, hv, _⟩ |
    ⟨f, img, format, e, _, _, _, hv, _⟩ | ⟨f, img, format, fileInfo, e, _, _, _, _, hv, _⟩ |
    ⟨f, img, format, fileInfo, ho, hd, hs, hc, hv, _⟩
  · rw [hv] at h; cases h
  · rw [hv] at h; cases h
  · rw [hv] at h; cases h
  · rw [hv] at h; cases h
  · rw [hv] at h
    exact ⟨f, img, format, fileInfo, ho, hd, hs, hc, (Option.some.inj h).symm⟩

/-- The sample file `a.txt` is checksummed without error. -/
theorem sample_a_txt :
    (GetFileChecksum sampleEnv "a.txt").val =
      "e3b0c44298fc1c149afbf4c8996fb92427ae41e4649b934ca495991b7852b855" ∧
    (GetFileChecksum sampleEnv "a.txt").err = none :=
  (GetFileChecksum_readable sampleEnv "a.txt" (regular [0x61]) (by decide) rfl rfl rfl).2
    (by decide)

/-- The sample file `b.txt` is checksummed without error. -/
theorem sample_b_txt :
    (GetFileChecksum sampleEnv "b.txt").val =
      "e3b0c44298fc1c149afbf4c8996fb92427ae41e4649b934ca495991b7852b855" ∧
    (GetFileChecksum sampleEnv "b.txt").err = none :=
  (GetFileChecksum_readable sampleEnv "b.txt" (regular [0x62]) (by decide) rfl rfl rfl).2
    (by decide)

set_option maxRecDepth 100000 in
/-- The SHA-256 digest of the one-byte input `a`, in hex. -/
theorem hex_sum256_a :
    hex.EncodeToString (sha256.sum256 [0x61]) =
      "ca978112ca1bbdcafac231b39a23dc4da786eff8147c4e72b9807785afee48bb" := by
  decide!

/-- The sample image yields a record. -/
theorem sample_png :
    (GetImageMetadata sampleEnv "dataset_example.png").val =
      some ⟨"dataset_example.png", 10, 10, "png",
        "e3b0c44298fc1c149afbf4c8996fb92427ae41e4649b934ca495991b7852b855", 29⟩ := by
  obtain ⟨hv, he⟩ := (GetFileChecksum_readable sampleEnv "dataset_example.png"
    (regular samplePng) (by decide) rfl rfl rfl).2 (by decide)
  have ho : Open sampleEnv.fs "dataset_example.png" =
      .ok ⟨"dataset_example.png", regular samplePng, 0⟩ := by decide
  have hd : DecodeConfig sampleEnv ⟨"dataset_example.png", regular samplePng, 0⟩ =
      .ok (⟨10, 10⟩, "png") := by decide
  have hs : File.Stat ⟨"dataset_example.png", regular samplePng, 0⟩ =
      .ok ⟨"dataset_example.png", 29⟩ := by decide
  simp only [GetImageMetadata, ho, hd, hs, he, hv]

/-! ## The claims -/

/-- C1 (code defect): on the readable one-byte file `a.txt` with content `a`,
`GetFileChecksum` succeeds but returns the hex digest of the empty input, which is not the
hex SHA-256 digest of the content. -/
theorem C1_checksum_not_digest_of_content :
    sampleEnv.fs "a.txt" = some (regular [0x61]) ∧
    (GetFileChecksum sampleEnv "a.txt").err = none ∧
    (GetFileChecksum sampleEnv "a.txt").val =
      "e3b0c44298fc1c149afbf4c8996fb92427ae41e4649b934ca495991b7852b855" ∧
    hex.EncodeToString (sha256.sum256 [0x61]) =
      "ca978112ca1bbdcafac231b39a23dc4da786eff8147c4e72b9807785afee48bb" ∧
    (GetFileChecksum sampleEnv "a.txt").val ≠ hex.EncodeToString (sha256.sum256 [0x61]) := by
  obtain ⟨hv, he⟩ := sample_a_txt
  refine ⟨by decide, he, hv, hex_sum256_a, ?_⟩
  rw [hv, hex_sum256_a]
  decide

/-- C2 (code defect): the readable files `a.txt` and `b.txt` differ in their only byte, yet
`GetFileChecksum` succeeds on both with the same checksum. -/
theorem C2_different_content_same_checksum :
    sampleEnv.fs "a.txt" = some (regular [0x61]) ∧
    sampleEnv.fs "b.txt" = some (regular [0x62]) ∧
    (regular [0x61]).content ≠ (regular [0x62]).content ∧
    (GetFileChecksum sampleEnv "a.txt").err = none ∧
    (GetFileChecksum sampleEnv "b.txt").err = none ∧
    (GetFileChecksum sampleEnv "a.txt").val = (GetFileChecksum sampleEnv "b.txt").val := by
  obtain ⟨hva, hea⟩ := sample_a_txt
  obtain ⟨hvb, heb⟩ := sample_b_txt
  refine ⟨by decide, by decide, by decide, hea, heb, ?_⟩
  rw [hva, hvb]

/-- C3: for two paths, in any two filesystems, that resolve to files which open, seek and
read without error and have the same bytes, `GetFileChecksum` returns the same value and the
same error. -/
theorem C3_checksum_depends_only_on_content (env₁ env₂ : Env) (p q : String) (m n : Inode)
    (hp : env₁.fs p = some m) (hq : env₂.fs q = some n)
    (hm : m.openErr = none ∧ m.seekErr = none ∧ m.readErr = none)
    (hn : n.openErr = none ∧ n.seekErr = none ∧ n.readErr = none)
    (hc : m.content = n.content) :
    (GetFileChecksum env₁ p).val = (GetFileChecksum env₂ q).val ∧
    (GetFileChecksum env₁ p).err = (GetFileChecksum env₂ q).err := by
  have h₁ := GetFileChecksum_readable env₁ p m hp hm.1 hm.2.1 hm.2.2
  have h₂ := GetFileChecksum_readable env₂ q n hq hn.1 hn.2.1 hn.2.2
  rw [hc] at h₁
  by_cases hnil : n.content = []
  · obtain ⟨hv₁, he₁⟩ := h₁.1 hnil
    obtain ⟨hv₂, he₂⟩ := h₂.1 hnil
    exact ⟨hv₁.trans hv₂.symm, he₁.trans he₂.symm⟩
  · obtain ⟨hv₁, he₁⟩ := h₁.2 hnil
    obtain ⟨hv₂, he₂⟩ := h₂.2 hnil
    exact ⟨hv₁.trans hv₂.symm, he₁.trans he₂.symm⟩

/-- C3 at the sample image and its copy under another name in another directory. -/
theorem C3_checksum_depends_only_on_content_witness :
    sampleEnv.fs "dataset_example.png" = some (regular samplePng) ∧
    sampleEnv.fs "/tmp/copy.png" = some (regular samplePng) ∧
    (GetFileChecksum sampleEnv "dataset_example.png").val =
      (GetFileChecksum sampleEnv "/tmp/copy.png").val ∧
    (GetFileChecksum sampleEnv "dataset_example.png").err =
      (GetFileChecksum sampleEnv "/tmp/copy.png").err :=
  ⟨by decide, by decide,
    C3_checksum_depends_only_on_content sampleEnv sampleEnv "dataset_example.png"
      "/tmp/copy.png" (regular samplePng) (regular samplePng) (by decide) (by decide)
      ⟨rfl, rfl, rfl⟩ ⟨rfl, rfl, rfl⟩ rfl⟩

/-- C4: `GetImageMetadata` returns either a record and no error, or no record and an error;
a failure of the open, decode, stat or checksum step yields no record; and a returned record
has its six fields taken from the stat, decode and checksum results of that same call. -/
theorem C4_extraction_atomic (env : Env) (p : String) :
    ((∃ md, (GetImageMetadata env p).val = some md ∧ (GetImageMetadata env p).err = none) ∨
      ((GetImageMetadata env p).val = none ∧ ∃ e, (GetImageMetadata env p).err = some e)) ∧
    ((∃ e, Open env.fs p = .error e) → (GetImageMetadata env p).val = none) ∧
    (∀ f, Open env.fs p = .ok f →
      ((∃ e, DecodeConfig env f = .error e) ∨ (∃ e, f.Stat = .error e) ∨
        (∃ e, (GetFileChecksum env p).err = some e)) →
      (GetImageMetadata env p).val = none) ∧
    (∀ md, (GetImageMetadata env p).val = some md →
      ∃ f img format fileInfo, Open env.fs p = .ok f ∧
        DecodeConfig env f = .ok (img, format) ∧ f.Stat = .ok fileInfo ∧
        (GetFileChecksum env p).err = none ∧
        md = ⟨fileInfo.Name, img.Width, img.Height, format, (GetFileChecksum env p).val,
          fileInfo.Size⟩) := by
  refine ⟨?_, ?_, ?_, GetImageMetadata_some env p⟩
  · rcases GetImageMetadata_spec env p with ⟨e, _, hv, he, _⟩ | ⟨f, e, _, _, hv, he, _⟩ |
      ⟨f, img, format, e, _, _, _, hv, he⟩ |
      ⟨f, img, format, fileInfo, e, _, _, _, _, hv, he⟩ |
      ⟨f, img, format, fileInfo, _, _, _, _, hv, he⟩
    · exact Or.inr ⟨hv, _, he⟩
    · exact Or.inr ⟨hv, _, he⟩
    · exact Or.inr ⟨hv, _, he⟩
    · exact Or.inr ⟨hv, _, he⟩
    · exact Or.inl ⟨_, hv, he⟩
  · rintro ⟨e, ho⟩
    cases hv : (GetImageMetadata env p).val with
    | none => rfl
    | some md =>
      obtain ⟨f, _, _, _, ho', _⟩ := GetImageMetadata_some env p md hv
      rw [ho] at ho'; cases ho'
  · intro f ho hfail
    cases hv : (GetImageMetadata env p).val with
    | none => rfl
    | some md =>
      obtain ⟨g, img, format, fileInfo, ho', hd, hs, hc, _⟩ := GetImageMetadata_some env p md hv
      rw [ho] at ho'
      cases ho'
      rcases hfail with ⟨e, h⟩ | ⟨e, h⟩ | ⟨e, h⟩
      · rw [hd] at h; cases h
      · rw [hs] at h; cases h
      · rw [hc] at h; cases h

/-- C4 at the sample image: the record returned is the one built from the stat, decode and
checksum results, and the file `broken.png`, whose stat fails, yields no record. -/
theorem C4_extraction_atomic_witness :
    (∃ f img format fileInfo, Open sampleEnv.fs "dataset_example.png" = .ok f ∧
        DecodeConfig sampleEnv f = .ok (img, format) ∧ f.Stat = .ok fileInfo ∧
        (GetFileChecksum sampleEnv "dataset_example.png").err = none ∧
        (⟨"dataset_example.png", 10, 10, "png",
            "e3b0c44298fc1c149afbf4c8996fb92427ae41e4649b934ca495991b7852b855", 29⟩ : Metadata) =
          ⟨fileInfo.Name, img.Width, img.Height, format,
            (GetFileChecksum sampleEnv "dataset_example.png").val, fileInfo.Size⟩) ∧
    (GetImageMetadata sampleEnv "broken.png").val = none :=
  ⟨(C4_extraction_atomic sampleEnv "dataset_example.png").2.2.2 _ sample_png,
    (C4_extraction_atomic sampleEnv "broken.png").2.2.1
      ⟨"broken.png", ⟨samplePng, none, none, none, some "input/output error"⟩, 0⟩ (by decide)
      (Or.inr (Or.inl ⟨"stat broken.png: input/output error", by decide⟩))⟩

/-- C5: for a path that does not exist, `GetImageMetadata` returns no record and an error
wrapping the open failure, and `GetFileChecksum` returns the empty string and an error
wrapping the open failure. -/
theorem C5_missing_file (env : Env) (p : String) (h : env.fs p = none) :
    (GetImageMetadata env p).val = none ∧
    (GetImageMetadata env p).err =
      some ("error opening file: " ++ ("open " ++ p ++ ": no such file or directory")) ∧
    (GetFileChecksum env p).val = "" ∧
    (GetFileChecksum env p).err =
      some ("error opening file: " ++ ("open " ++ p ++ ": no such file or directory")) := by
  have ho : Open env.fs p = .error ("open " ++ p ++ ": no such file or directory") := by
    simp [Open, h]
  refine ⟨?_, ?_, ?_, ?_⟩
  · simp [GetImageMetadata, ho]
  · simp [GetImageMetadata, ho]
  · simp [GetFileChecksum, ho]
  · simp [GetFileChecksum, ho]

/-- C5 at the path `/no/such/file` of the sample filesystem. -/
theorem C5_missing_file_witness :
    sampleEnv.fs "/no/such/file" = none ∧
    (GetImageMetadata sampleEnv "/no/such/file").val = none ∧
    (GetImageMetadata sampleEnv "/no/such/file").err =
      some "error opening file: open /no/such/file: no such file or directory" ∧
    (GetFileChecksum sampleEnv "/no/such/file").val = "" ∧
    (GetFileChecksum sampleEnv "/no/such/file").err =
      some "error opening file: open /no/such/file: no such file or directory" :=
  ⟨by decide, C5_missing_file sampleEnv "/no/such/file" (by decide)⟩

/-- C6: when the file opens and the header decode step returns an error, `GetImageMetadata`
returns no record and the decode error, and the call consists of the open, the decode and
the close only: no stat, and no second open, seek or read for the checksum. -/
theorem C6_unsupported_content (env : Env) (p : String) (f : File) (e : String)
    (ho : Open env.fs p = .ok f) (hd : DecodeConfig env f = .error e) :
    (GetImageMetadata env p).val = none ∧
    (GetImageMetadata env p).err = some ("error decoding image: " ++ e) ∧
    (GetImageMetadata env p).trace = [.openFile p, .decodeHeader p, .closeFile p] ∧
    (∀ q, Event.statFile q ∉ (GetImageMetadata env p).trace) ∧
    (∀ q, Event.seekFile q ∉ (GetImageMetadata env p).trace) ∧
    (∀ q n, Event.readFile q n ∉ (GetImageMetadata env p).trace) ∧
    (GetImageMetadata env p).trace.count (.openFile p) = 1 := by
  have ht : (GetImageMetadata env p).trace = [.openFile p, .decodeHeader p, .closeFile p] := by
    simp [GetImageMetadata, ho, hd]
  refine ⟨?_, ?_, ht, ?_, ?_, ?_, ?_⟩
  · simp [GetImageMetadata, ho, hd]
  · simp [GetImageMetadata, ho, hd]
  · intro q; rw [ht]; simp
  · intro q; rw [ht]; simp
  · intro q n; rw [ht]; simp
  · rw [ht]; simp [List.count_cons]

/-- C6 at the sample text file `a.txt`, which no registered decoder recognises. -/
theorem C6_unsupported_content_witness :
    sampleEnv.decoders [0x61] = .error "image: unknown format" ∧
    (GetImageMetadata sampleEnv "a.txt").val = none ∧
    (GetImageMetadata sampleEnv "a.txt").err =
      some "error decoding image: image: unknown format" ∧
    (GetImageMetadata sampleEnv "a.txt").trace =
      [.openFile "a.txt", .decodeHeader "a.txt", .closeFile "a.txt"] :=
  have h := C6_unsupported_content sampleEnv "a.txt" ⟨"a.txt", regular [0x61], 0⟩
    "image: unknown format" (by decide) (by decide)
  ⟨by decide, h.1, h.2.1, h.2.2.1⟩

/-- C7: when `GetImageMetadata` succeeds on a path resolving to a file with content of `n`
bytes, the record has `FileSize = n` and `FileName` is the name the stat of the opened file
reports, the base name of the path. -/
theorem C7_size_accuracy (env : Env) (p : String) (nd : Inode) (md : Metadata) (n : Nat)
    (h : env.fs p = some nd) (hn : nd.content.length = n)
    (hs : (GetImageMetadata env p).val = some md) :
    md.FileSize = n ∧
    ∃ f fileInfo, Open env.fs p = .ok f ∧ f.Stat = .ok fileInfo ∧
      md.FileName = fileInfo.Name ∧ md.FileSize = fileInfo.Size ∧
      fileInfo.Name = basename p := by
  obtain ⟨f, img, format, fileInfo, ho, _, hst, _, hmd⟩ := GetImageMetadata_some env p md hs
  have hf : f = ⟨p, nd, 0⟩ := by
    cases hoe : nd.openErr with
    | some e => simp [Open, h, hoe] at ho
    | none => simp [Open, h, hoe] at ho; exact ho.symm
  have hi : fileInfo = ⟨basename p, nd.content.length⟩ := by
    unfold File.Stat at hst
    rw [hf] at hst
    cases hse : nd.statErr with
    | some e => simp [hse] at hst
    | none => simp [hse] at hst; exact hst.symm
  subst hmd
  refine ⟨?_, f, fileInfo, ho, hst, rfl, rfl, ?_⟩
  · rw [hi, ← hn]
  · rw [hi]

/-- C7 at the sample image of 29 bytes. -/
theorem C7_size_accuracy_witness :
    samplePng.length = 29 ∧
    (GetImageMetadata sampleEnv "dataset_example.png").val =
      some ⟨"dataset_example.png", 10, 10, "png",
        "e3b0c44298fc1c149afbf4c8996fb92427ae41e4649b934ca495991b7852b855", 29⟩ ∧
    (29 : Int) = (29 : Nat) ∧ basename "dataset_example.png" = "dataset_example.png" :=
  ⟨by decide, sample_png,
    (C7_size_accuracy sampleEnv "dataset_example.png" (regular samplePng)
      ⟨"dataset_example.png", 10, 10, "png",
        "e3b0c44298fc1c149afbf4c8996fb92427ae41e4649b934ca495991b7852b855", 29⟩ 29
      (by decide) (by decide) sample_png).1,
    by decide⟩

/-- The checksum of a successful call has 64 characters, all lowercase hex digits. -/
theorem GetFileChecksum_shape (env : Env) (p : String)
    (h : (GetFileChecksum env p).err = none) :
    (GetFileChecksum env p).val.length = 64 ∧
    ∀ c ∈ (GetFileChecksum env p).val.data, hex.isLowerHex c = true := by
  rw [GetFileChecksum_val_of_ok env p h]
  decide

/-- C8: whenever `GetFileChecksum` succeeds the string it returns has exactly 64 characters,
each a lowercase hexadecimal digit, and so has the `Checksum` field of every record that
`GetImageMetadata` returns. -/
theorem C8_checksum_shape (env : Env) (p : String) :
    ((GetFileChecksum env p).err = none →
      (GetFileChecksum env p).val.length = 64 ∧
      ∀ c ∈ (GetFileChecksum env p).val.data, hex.isLowerHex c = true) ∧
    (∀ md, (GetImageMetadata env p).val = some md →
      md.Checksum.length = 64 ∧ ∀ c ∈ md.Checksum.data, hex.isLowerHex c = true) := by
  refine ⟨GetFileChecksum_shape env p, ?_⟩
  intro md hmd
  obtain ⟨f, img, format, fileInfo, _, _, _, hc, rfl⟩ := GetImageMetadata_some env p md hmd
  exact GetFileChecksum_shape env p hc

/-- C8 at the sample text file and the sample image. -/
theorem C8_checksum_shape_witness :
    (GetFileChecksum sampleEnv "a.txt").err = none ∧
    (GetFileChecksum sampleEnv "a.txt").val.length = 64 ∧
    (∀ c ∈ (GetFileChecksum sampleEnv "a.txt").val.data, hex.isLowerHex c = true) ∧
    ("e3b0c44298fc1c149afbf4c8996fb92427ae41e4649b934ca495991b7852b855").length = 64 :=
  have ha : (GetFileChecksum sampleEnv "a.txt").err = none := sample_a_txt.2
  ⟨ha, ((C8_checksum_shape sampleEnv "a.txt").1 ha).1,
    ((C8_checksum_shape sampleEnv "a.txt").1 ha).2,
    ((C8_checksum_shape sampleEnv "dataset_example.png").2
      ⟨"dataset_example.png", 10, 10, "png",
        "e3b0c44298fc1c149afbf4c8996fb92427ae41e4649b934ca495991b7852b855", 29⟩
      sample_png).1⟩

/-- C9: the hash object never absorbs a byte, so whenever `GetFileChecksum` succeeds it
returns the hex encoding of the sum of a fresh hash object, which is the hex SHA-256 digest
of the empty input, `e3b0c442...7852b855`, whatever the content of the file. -/
theorem C9_checksum_constant (env : Env) (p : String)
    (h : (GetFileChecksum env p).err = none) :
    (GetFileChecksum env p).val = hex.EncodeToString (sha256.New.Sum []) ∧
    sha256.New.absorbed = [] ∧
    hex.EncodeToString (sha256.sum256 []) =
      "e3b0c44298fc1c149afbf4c8996fb92427ae41e4649b934ca495991b7852b855" ∧
    (GetFileChecksum env p).val =
      "e3b0c44298fc1c149afbf4c8996fb92427ae41e4649b934ca495991b7852b855" := by
  have hv := GetFileChecksum_val_of_ok env p h
  refine ⟨by rw [hv, hex_New_Sum], rfl, ?_, hv⟩
  rw [← sha256.New_Sum_nil, hex_New_Sum]

/-- C9 at the sample files `a.txt` and `b.txt`. -/
theorem C9_checksum_constant_witness :
    (GetFileChecksum sampleEnv "a.txt").err = none ∧
    (GetFileChecksum sampleEnv "a.txt").val =
      "e3b0c44298fc1c149afbf4c8996fb92427ae41e4649b934ca495991b7852b855" ∧
    (GetFileChecksum sampleEnv "b.txt").val =
      "e3b0c44298fc1c149afbf4c8996fb92427ae41e4649b934ca495991b7852b855" :=
  ⟨sample_a_txt.2, (C9_checksum_constant sampleEnv "a.txt" sample_a_txt.2).2.2.2,
    (C9_checksum_constant sampleEnv "b.txt" sample_b_txt.2).2.2.2⟩

/-- C10: the buffer read into has 32 bytes; `GetFileChecksum` succeeds exactly when the open
succeeds, the seek to offset 0 succeeds and one read into that buffer returns no error; and
on an existing zero-length file that opens, seeks and reads without fault, that read reports
`EOF` and `GetFileChecksum` returns the empty string with the error
`error calculating checksum: EOF`. -/
theorem C10_success_condition (env : Env) (p : String) :
    (sha256.New.Sum []).length = 32 ∧
    ((GetFileChecksum env p).err = none ↔
      ∃ f g o, Open env.fs p = .ok f ∧ f.Seek 0 = .ok (g, o) ∧
        (g.Read (sha256.New.Sum [])).err = none) ∧
    (∀ nd, env.fs p = some nd → nd.openErr = none → nd.seekErr = none →
      nd.readErr = none → nd.content = [] →
      (∃ f g o, Open env.fs p = .ok f ∧ f.Seek 0 = .ok (g, o) ∧
        (g.Read (sha256.New.Sum [])).err = some "EOF") ∧
      (GetFileChecksum env p).val = "" ∧
      (GetFileChecksum env p).err = some "error calculating checksum: EOF") := by
  refine ⟨sha256.New_Sum_length, ?_, ?_⟩
  · constructor
    · intro h
      rcases GetFileChecksum_spec env p with ⟨e, _, _, he⟩ | ⟨f, e, _, _, _, he⟩ |
        ⟨f, g, o, e, _, _, _, _, he⟩ | ⟨f, g, o, ho, hs, hr, _, _⟩
      · rw [he] at h; cases h
      · rw [he] at h; cases h
      · rw [he] at h; cases h
      · exact ⟨f, g, o, ho, hs, hr⟩
    · rintro ⟨f, g, o, ho, hs, hr⟩
      simp [GetFileChecksum, ho, hs, hr]
  · intro nd h ho hs hr hc
    have hres := (GetFileChecksum_readable env p nd h ho hs hr).1 hc
    refine ⟨⟨⟨p, nd, 0⟩, ⟨p, nd, 0⟩, 0, Open_ok env.fs p nd h ho, by simp [File.Seek, hs], ?_⟩,
      hres.1, hres.2⟩
    simp [File.Read, hr, hc, sha256.New_Sum_length]

/-- C10 at the zero-length sample file `empty`. -/
theorem C10_success_condition_witness :
    sampleEnv.fs "empty" = some (regular []) ∧
    (GetFileChecksum sampleEnv "empty").val = "" ∧
    (GetFileChecksum sampleEnv "empty").err = some "error calculating checksum: EOF" :=
  ⟨by decide,
    ((C10_success_condition sampleEnv "empty").2.2 (regular []) (by decide) rfl rfl rfl rfl).2⟩
